import Mathlib

/-!
Verification of the EBD audit engine: a shallow embedding of the rule
evaluators found in the web-form variant (FloorSafetyAudit, LightingAudit,
SpatialAudit), the pro terminal-report variant (its merged SpatialAudit),
and the plain terminal variant (rule functions returning a pass flag).
Measurements are modelled as rationals, statuses as a three-valued type,
and diagnostic notes as inductive note values carrying the measured value
and the violated threshold, mirroring the formatted log strings.
-/

namespace EBD

/-- Verdict status: the tri-state PASS / WARNING / FAIL strings of the source. -/
inductive Status
  | PASS
  | WARNING
  | FAIL
deriving DecidableEq

/-- Zone categories appearing in the web variant; Other stands for any
category absent from the static lookup tables. -/
inductive Zone
  | Corridor
  | Bathroom
  | OutdoorRamp
  | TherapyPool
  | Dining
  | ReadingArea
  | Other
deriving DecidableEq

/-- The requirements record built by FloorSafetyAudit.audit_material. -/
structure Requirements where
  min_dcof : ℚ
  min_r : ℤ
  standard_ref : String
deriving DecidableEq

/-- The wet-risk zone list of FloorSafetyAudit.audit_material (is_wet_zone). -/
def wetRiskZones : List Zone :=
  [Zone.Bathroom, Zone.Dining, Zone.TherapyPool, Zone.OutdoorRamp]

/-- Threshold resolution of FloorSafetyAudit.audit_material: the base dict
updated by the is_ramp / Therapy Pool / is_wet_zone elif chain.
0.02 = 1/50, 0.60 = 3/5, 1.5 = 3/2, 0.05 = 1/20, 0.55 = 11/20, 0.42 = 21/50. -/
def resolveRequirements (zone : Zone) (slope_ratio : ℚ) : Requirements :=
  if slope_ratio > 1/50 then
    { min_dcof := 3/5 + slope_ratio * (3/2)
      min_r := if slope_ratio < 1/20 then 11 else 12
      standard_ref := "EBD Physics + DIN 51130 (Ramp)" }
  else if zone = Zone.TherapyPool then
    { min_dcof := 3/5, min_r := 12, standard_ref := "ANSI Wet Plus / DIN 51097" }
  else if zone ∈ wetRiskZones then
    { min_dcof := 11/20, min_r := 11, standard_ref := "EBD Geriatric Safety Uplift" }
  else
    { min_dcof := 21/50, min_r := 9, standard_ref := "ANSI A326.3" }

/-- Diagnostic notes of the floor-safety module; each carries the measured
value and the threshold the log string embeds. -/
inductive FloorNote
  | dcofBelow (measured threshold : ℚ)
  | rBelow (measured threshold : ℤ)
  | highRiskAdvisory
deriving DecidableEq

/-- Result record of FloorSafetyAudit.audit_material. -/
structure FloorVerdict where
  status : Status
  requirements : Requirements
  log : List FloorNote
deriving DecidableEq

/-- FloorSafetyAudit.audit_material of the web variant: resolve requirements,
run the two strict comparisons (each appends a note and sets FAIL), then
append the high-risk advisory when FAIL in a Bathroom or Outdoor Ramp. -/
def audit_material (zone : Zone) (slope_ratio measured_dcof : ℚ)
    (din_r_value : ℤ) : FloorVerdict :=
  let req := resolveRequirements zone slope_ratio
  let dcofFail := measured_dcof < req.min_dcof
  let rFail := din_r_value < req.min_r
  let status := if dcofFail ∨ rFail then Status.FAIL else Status.PASS
  let log0 :=
    (if dcofFail then [FloorNote.dcofBelow measured_dcof req.min_dcof] else []) ++
    (if rFail then [FloorNote.rBelow din_r_value req.min_r] else [])
  let log :=
    if status = Status.FAIL ∧ (zone = Zone.Bathroom ∨ zone = Zone.OutdoorRamp) then
      log0 ++ [FloorNote.highRiskAdvisory]
    else log0
  { status := status, requirements := req, log := log }

/-- The LUX_TARGETS table of LightingAudit with the .get default of 300 lux
for categories absent from the table. -/
def lux_target : Zone → ℚ
  | Zone.Dining => 500
  | Zone.ReadingArea => 750
  | Zone.Corridor => 300
  | Zone.Bathroom => 500
  | Zone.TherapyPool => 750
  | Zone.OutdoorRamp => 150
  | Zone.Other => 300

/-- Diagnostic notes of the lighting module. -/
inductive LightNote
  | luxBelow (measured target : ℚ)
  | ratioExceeds (value : ℚ)
deriving DecidableEq

/-- Result record of LightingAudit.audit_space_lighting. -/
structure LightVerdict where
  status : Status
  target_lux : ℚ
  log : List LightNote
deriving DecidableEq

/-- LightingAudit.audit_space_lighting of the web variant. The optional
adjacent reading is an Option; the Python truthiness test on it skips the
adaptation-ratio check when it is absent or zero. 0.01 = 1/100. -/
def audit_space_lighting (zone : Zone) (measured_lux : ℚ)
    (adjacent_zone_lux : Option ℚ) : LightVerdict :=
  let target := lux_target zone
  let luxFail := measured_lux < target
  let status1 := if luxFail then Status.FAIL else Status.PASS
  let log1 := if luxFail then [LightNote.luxBelow measured_lux target] else []
  match adjacent_zone_lux with
  | none => { status := status1, target_lux := target, log := log1 }
  | some a =>
    if a = 0 then { status := status1, target_lux := target, log := log1 }
    else
      let q := max measured_lux a / (min measured_lux a + 1/100)
      if q > 3 then
        { status := Status.FAIL, target_lux := target
          log := log1 ++ [LightNote.ratioExceeds q] }
      else { status := status1, target_lux := target, log := log1 }

/-- Diagnostic notes of the spatial modules (web and pro variants). -/
inductive SpatialNote
  | turningBelow (measured : ℚ)
  | slopeWarn (measured : ℚ)
  | slopeFail (measured : ℚ)
deriving DecidableEq

/-- SpatialAudit.audit_turning_circle of the web variant:
PASS when the clearance is at least MIN_TURNING_DIA = 1525 mm. -/
def audit_turning_circle (clear_width_mm : ℚ) : Status × List SpatialNote :=
  if clear_width_mm ≥ 1525 then (Status.PASS, [])
  else (Status.FAIL, [SpatialNote.turningBelow clear_width_mm])

/-- SpatialAudit.audit_ramp_slope of the web variant: FAIL above
MAX_SLOPE_HARD = 1/12, WARNING above MAX_SLOPE_SOFT = 1/20, else PASS. -/
def audit_ramp_slope (slope_ratio : ℚ) : Status × List SpatialNote :=
  if slope_ratio > 1/12 then (Status.FAIL, [SpatialNote.slopeFail slope_ratio])
  else if slope_ratio > 1/20 then (Status.WARNING, [SpatialNote.slopeWarn slope_ratio])
  else (Status.PASS, [])

/-- SpatialAudit.audit of the pro variant: one merged verdict. The turning
branch fires only when the diameter is strictly positive and below 1525;
the slope checks then reassign the status unconditionally, so the WARNING
branch overwrites a FAIL set by the turning branch. -/
def proSpatialAudit (turning_diameter slope : ℚ) : Status × List SpatialNote :=
  let diaFail := 0 < turning_diameter ∧ turning_diameter < 1525
  let status1 := if diaFail then Status.FAIL else Status.PASS
  let log1 := if diaFail then [SpatialNote.turningBelow turning_diameter] else []
  if 1/20 < slope ∧ slope ≤ 1/12 then (Status.WARNING, log1 ++ [SpatialNote.slopeWarn slope])
  else if 1/12 < slope then (Status.FAIL, log1 ++ [SpatialNote.slopeFail slope])
  else (status1, log1)

/-- Terminal variant rule_toilet_door_width: pass when width is at least 900 mm. -/
def rule_toilet_door_width (door_width : ℚ) : Bool :=
  decide (door_width ≥ 900)

/-- Terminal variant rule_toilet_emergency_call: pass when the flag is set. -/
def rule_toilet_emergency_call (has_emergency_call : Bool) : Bool :=
  has_emergency_call

/-- Terminal variant rule_toilet_area: pass when the area is at least 4.0 square meters. -/
def rule_toilet_area (area : ℚ) : Bool :=
  decide (area ≥ 4)

/-- Terminal variant rule_ramp_slope: pass when the slope is at most
1/12 + 0.001 (0.001 = 1/1000); a plain two-valued rule. -/
def rule_ramp_slope (slope_ratio : ℚ) : Bool :=
  decide (slope_ratio ≤ 1/12 + 1/1000)

/-- Terminal variant rule_ramp_width: pass when the width is at least 1200 mm. -/
def rule_ramp_width (width : ℚ) : Bool :=
  decide (width ≥ 1200)

/-- Terminal variant run_element_check status icon: a pass flag maps to PASS,
anything else to FAIL; no rule result is ever rendered as WARNING. -/
def renderStatus (passed : Bool) : Status :=
  if passed then Status.PASS else Status.FAIL

/-- Modelled from the spec: the Psychosocial Healing Score evaluator of
section 4.5 is described by the specification but absent from the source
files under src. Sensory sub-score: 100 for a material count in [3,5],
60 below 3, 70 above 5. -/
def sensoryScore (material_count : ℕ) : ℚ :=
  if material_count < 3 then 60 else if 5 < material_count then 70 else 100

/-- Modelled from the spec: nature sub-score, the linear map
min((ratio/0.3) x 60 + 40, 100). -/
def natureScore (nature_view : ℚ) : ℚ :=
  min (nature_view / (3/10) * 60 + 40) 100

/-- Modelled from the spec: social sub-score, 100 when the caregiver
distance lies in [6,15] meters, otherwise 50. -/
def socialScore (care_dist : ℚ) : ℚ :=
  if 6 ≤ care_dist ∧ care_dist ≤ 15 then 100 else 50

/-- Modelled from the spec: weighted base of the healing score,
0.3 x sensory + 0.4 x nature + 0.3 x social. -/
def healingBase (material_count : ℕ) (nature_view care_dist : ℚ) : ℚ :=
  3/10 * sensoryScore material_count + 2/5 * natureScore nature_view +
    3/10 * socialScore care_dist

/-- Modelled from the spec: climate correction, final = base x 0.6 when the
shaded-coverage fraction is below 0.4, else final = base. -/
def healingFinal (material_count : ℕ) (nature_view care_dist shade : ℚ) : ℚ :=
  if shade < 2/5 then healingBase material_count nature_view care_dist * (3/5)
  else healingBase material_count nature_view care_dist

/-- Modelled from the spec: letter grade, S when the final score is at
least 90, A at least 80, else B. -/
def healingGrade (score : ℚ) : String :=
  if 90 ≤ score then "S" else if 80 ≤ score then "A" else "B"

/-- Claim C2 (code bug in the pro variant, exhibited at a concrete input):
with turning diameter 1400 mm and slope 0.06 the turning-circle numeric
check fails its threshold (0 < 1400 < 1525) and its failure note is in the
log, yet the merged verdict status is WARNING, not FAIL: the slope-warning
assignment overwrote the FAIL, so WARNING masks a failed numeric check. -/
theorem pro_spatial_warning_masks_fail :
    ((0 : ℚ) < 1400 ∧ (1400 : ℚ) < 1525) ∧
    SpatialNote.turningBelow 1400 ∈ (proSpatialAudit 1400 (3/50)).2 ∧
    (proSpatialAudit 1400 (3/50)).1 = Status.WARNING ∧
    (proSpatialAudit 1400 (3/50)).1 ≠ Status.FAIL := by
  have h : proSpatialAudit 1400 (3/50) =
      (Status.WARNING, [SpatialNote.turningBelow 1400, SpatialNote.slopeWarn (3/50)]) := by
    unfold proSpatialAudit
    norm_num
  refine ⟨by norm_num, ?_, ?_, ?_⟩ <;> rw [h] <;> simp

/-- Claim C3 counterexample: a slope ratio of exactly 0.05 does not yield
WARNING in audit_ramp_slope; it yields PASS, because 0.05 > 1/20 is false. -/
theorem ramp_slope_boundary_counterexample :
    (audit_ramp_slope (5/100)).1 ≠ Status.WARNING ∧
    (audit_ramp_slope (5/100)).1 = Status.PASS := by
  have h : (audit_ramp_slope (5/100)).1 = Status.PASS := by
    unfold audit_ramp_slope
    norm_num
  exact ⟨by rw [h]; simp, h⟩

/-- Claim C3 (amended): the ramp-slope check is tri-state: FAIL exactly when
the slope ratio exceeds 1/12, WARNING exactly when it lies in (1/20, 1/12],
PASS exactly when it is at most 1/20; in particular a slope ratio of
exactly 0.05 yields PASS. -/
theorem ramp_slope_tristate (s : ℚ) :
    ((audit_ramp_slope s).1 = Status.FAIL ↔ 1/12 < s) ∧
    ((audit_ramp_slope s).1 = Status.WARNING ↔ 1/20 < s ∧ s ≤ 1/12) ∧
    ((audit_ramp_slope s).1 = Status.PASS ↔ s ≤ 1/20) ∧
    (audit_ramp_slope (5/100)).1 = Status.PASS := by
  refine ⟨?_, ?_, ?_, by unfold audit_ramp_slope; norm_num⟩ <;>
  · unfold audit_ramp_slope
    split_ifs with h1 h2 <;> simp_all <;> linarith

/-- Claim C4 (modelled from the spec, section 4.5): the healing score has
base 0.3 x sensory + 0.4 x nature + 0.3 x social, the base is multiplied by
0.6 exactly when the shaded coverage is below 0.4, grades are S at 90 and
above, A at 80 and above, else B; and at material count 4, nature fraction
0.35, caregiver distance 8 and shade 0.3 the final score is 60 with grade B. -/
theorem healing_score_spec :
    (∀ (c : ℕ) (nv cd sh : ℚ),
      healingBase c nv cd =
        3/10 * sensoryScore c + 2/5 * natureScore nv + 3/10 * socialScore cd ∧
      healingFinal c nv cd sh =
        if sh < 2/5 then healingBase c nv cd * (3/5) else healingBase c nv cd) ∧
    (∀ x : ℚ, healingGrade x = if 90 ≤ x then "S" else if 80 ≤ x then "A" else "B") ∧
    healingFinal 4 (7/20) 8 (3/10) = 60 ∧
    healingGrade (healingFinal 4 (7/20) 8 (3/10)) = "B" := by
  refine ⟨fun c nv cd sh => ⟨rfl, rfl⟩, fun x => rfl, ?_, ?_⟩ <;>
  · simp only [healingGrade, healingFinal, healingBase, sensoryScore, natureScore, socialScore]
    norm_num

/-- Claim C6: the web-variant turning-circle check returns FAIL exactly when
the clearance diameter is below 1525 mm and PASS otherwise; 1500 mm is FAIL
and exactly 1525 mm is PASS. -/
theorem turning_circle_fail_iff (d : ℚ) :
    ((audit_turning_circle d).1 = Status.FAIL ↔ d < 1525) ∧
    ((audit_turning_circle d).1 = Status.PASS ↔ 1525 ≤ d) ∧
    (audit_turning_circle 1500).1 = Status.FAIL ∧
    (audit_turning_circle 1525).1 = Status.PASS := by
  refine ⟨?_, ?_, by unfold audit_turning_circle; norm_num,
    by unfold audit_turning_circle; norm_num⟩ <;>
  · unfold audit_turning_circle
    split_ifs with h <;> simp_all

/-- Claim C10: the terminal-variant ramp-slope rule is two-valued: it passes
exactly when the slope ratio is at most 1/12 + 0.001; and the terminal
rendering maps every rule result to PASS or FAIL, never WARNING. -/
theorem terminal_ramp_rule_binary (s : ℚ) (b : Bool) :
    (rule_ramp_slope s = true ↔ s ≤ 1/12 + 1/1000) ∧
    renderStatus b ≠ Status.WARNING ∧
    (renderStatus b = Status.PASS ∨ renderStatus b = Status.FAIL) := by
  refine ⟨by simp [rule_ramp_slope], ?_, ?_⟩ <;> cases b <;> decide

/-- Claim C1: threshold resolution follows the fixed precedence order
ramp > TherapyPool > generic wet zone > base, one branch per input: above
slope 0.02 the ramp thresholds apply regardless of zone (min DCOF
0.60 + slope x 1.5, min R 11 below slope 0.05 else 12); otherwise a
Therapy Pool gets 0.60 / R12; otherwise a remaining wet-risk zone gets
0.55 / R11; otherwise the base 0.42 / R9 applies. -/
theorem resolve_requirements_precedence (z : Zone) (s : ℚ) :
    (1/50 < s → resolveRequirements z s =
      { min_dcof := 3/5 + s * (3/2), min_r := if s < 1/20 then 11 else 12
        standard_ref := "EBD Physics + DIN 51130 (Ramp)" }) ∧
    (s ≤ 1/50 → z = Zone.TherapyPool → resolveRequirements z s =
      { min_dcof := 3/5, min_r := 12, standard_ref := "ANSI Wet Plus / DIN 51097" }) ∧
    (s ≤ 1/50 → z ≠ Zone.TherapyPool → z ∈ wetRiskZones → resolveRequirements z s =
      { min_dcof := 11/20, min_r := 11, standard_ref := "EBD Geriatric Safety Uplift" }) ∧
    (s ≤ 1/50 → z ∉ wetRiskZones → resolveRequirements z s =
      { min_dcof := 21/50, min_r := 9, standard_ref := "ANSI A326.3" }) := by
  unfold resolveRequirements
  refine ⟨fun h => ?_, fun h hz => ?_, fun h hz hw => ?_, fun h hw => ?_⟩
  · rw [if_pos h]
  · rw [if_neg (not_lt.2 h), if_pos hz]
  · rw [if_neg (not_lt.2 h), if_neg hz, if_pos hw]
  · have hz : z ≠ Zone.TherapyPool := by
      intro hc
      exact hw (by rw [hc]; simp [wetRiskZones])
    rw [if_neg (not_lt.2 h), if_neg hz, if_neg hw]

/-- Witness for claim C1: a Therapy Pool on a slope of 0.03 takes the ramp
thresholds, not the pool thresholds. -/
theorem resolve_requirements_precedence_witness :
    (1/50 : ℚ) < 3/100 ∧
    resolveRequirements Zone.TherapyPool (3/100) =
      { min_dcof := 3/5 + (3/100) * (3/2)
        min_r := if (3/100 : ℚ) < 1/20 then 11 else 12
        standard_ref := "EBD Physics + DIN 51130 (Ramp)" } :=
  ⟨by norm_num,
    (resolve_requirements_precedence Zone.TherapyPool (3/100)).1 (by norm_num)⟩

/-- Claim C5: for nonnegative readings the illuminance verdict is FAIL
exactly when the measured lux is below the zone target (300 for unlisted
categories) or a provided nonzero adjacent reading gives an adaptation
ratio max/(min + 0.01) above 3; at measured 150, adjacent 600, zone
Bathroom (target 500) both checks fail and exactly the two notes are
emitted. -/
theorem lighting_fail_iff (z : Zone) (lux : ℚ) (adj : Option ℚ)
    (hl : 0 ≤ lux) (ha : ∀ a, adj = some a → 0 ≤ a) :
    ((audit_space_lighting z lux adj).status = Status.FAIL ↔
      lux < lux_target z ∨
        ∃ a, adj = some a ∧ a ≠ 0 ∧ 3 < max lux a / (min lux a + 1/100)) ∧
    lux_target Zone.Bathroom = 500 ∧ lux_target Zone.Other = 300 ∧
    (audit_space_lighting Zone.Bathroom 150 (some 600)).status = Status.FAIL ∧
    (audit_space_lighting Zone.Bathroom 150 (some 600)).log =
      [LightNote.luxBelow 150 500, LightNote.ratioExceeds (60000/15001)] := by
  refine ⟨?_, rfl, rfl, ?_, ?_⟩
  · cases adj with
    | none =>
      unfold audit_space_lighting
      dsimp only
      split_ifs with hf <;> simp [hf]
    | some a =>
      unfold audit_space_lighting
      dsimp only
      by_cases ha0 : a = 0
      · rw [if_pos ha0]
        split_ifs with hf <;> simp [hf, ha0]
      · rw [if_neg ha0]
        by_cases hq : 3 < max lux a / (min lux a + 1/100)
        · rw [if_pos hq]
          simp only []
          constructor
          · intro _
            right
            exact ⟨a, rfl, ha0, hq⟩
          · intro _
            trivial
        · rw [if_neg hq]
          split_ifs with hf
          · simp [hf]
          · constructor
            · intro hc
              exact absurd hc (by simp)
            · rintro (hc | ⟨b, hb, hb0, hr⟩)
              · exact absurd hc hf
              · rw [Option.some_inj] at hb
                subst hb
                exact absurd hr hq
  · simp [audit_space_lighting, lux_target]
    norm_num
  · simp [audit_space_lighting, lux_target]
    norm_num

/-- Witness for claim C5: the theorem applied at measured 150 lux,
adjacent 600 lux, zone Bathroom, with the nonnegativity side conditions
discharged. -/
theorem lighting_fail_iff_witness :
    (0 : ℚ) ≤ 150 ∧
    ((audit_space_lighting Zone.Bathroom 150 (some 600)).status = Status.FAIL ↔
      (150 : ℚ) < lux_target Zone.Bathroom ∨
        ∃ a, (some (600 : ℚ)) = some a ∧ a ≠ 0 ∧
          3 < max (150 : ℚ) a / (min (150 : ℚ) a + 1/100)) := by
  refine ⟨by norm_num, ?_⟩
  exact (lighting_fail_iff Zone.Bathroom 150 (some 600) (by norm_num)
    (by rintro a h; rw [Option.some_inj] at h; rw [← h]; norm_num)).1

/-- Claim C7: the surface-friction status is FAIL exactly when the measured
DCOF is strictly below the required DCOF or the measured R-value strictly
below the required R; the two checks are independent and each failing one
contributes its own note (the advisory aside); DCOF 0.42, R9, Corridor,
slope 0 meets the base thresholds exactly and passes. -/
theorem floor_fail_iff (z : Zone) (s dcof : ℚ) (r : ℤ) :
    ((audit_material z s dcof r).status = Status.FAIL ↔
      dcof < (resolveRequirements z s).min_dcof ∨ r < (resolveRequirements z s).min_r) ∧
    ((audit_material z s dcof r).log.filter
        (fun n => decide (n ≠ FloorNote.highRiskAdvisory))).length =
      (if dcof < (resolveRequirements z s).min_dcof then 1 else 0) +
      (if r < (resolveRequirements z s).min_r then 1 else 0) ∧
    (audit_material Zone.Corridor 0 (21/50) 9).status = Status.PASS := by
  refine ⟨?_, ?_, ?_⟩
  · by_cases h1 : dcof < (resolveRequirements z s).min_dcof <;>
    by_cases h2 : r < (resolveRequirements z s).min_r <;>
      simp [audit_material, h1, h2]
  · by_cases h1 : dcof < (resolveRequirements z s).min_dcof <;>
    by_cases h2 : r < (resolveRequirements z s).min_r <;>
    by_cases h3 : z = Zone.Bathroom ∨ z = Zone.OutdoorRamp <;>
      simp [audit_material, h1, h2, h3, List.filter]
  · have hreq : resolveRequirements Zone.Corridor 0 =
        { min_dcof := 21/50, min_r := 9, standard_ref := "ANSI A326.3" } := by
      unfold resolveRequirements
      rw [if_neg (by norm_num : ¬ ((0 : ℚ) > 1/50)),
        if_neg (by decide : ¬ (Zone.Corridor = Zone.TherapyPool)),
        if_neg (by decide : ¬ (Zone.Corridor ∈ wetRiskZones))]
    norm_num [audit_material, hreq]

/-- Claim C8: the fixed high-risk advisory note is in the floor-safety log
exactly when the status is FAIL and the zone is Bathroom or OutdoorRamp;
at DCOF 0.35, R9, Bathroom, slope 0 the verdict is FAIL, carries the note
citing the 0.55 threshold, and carries the advisory. -/
theorem floor_advisory_iff (z : Zone) (s dcof : ℚ) (r : ℤ) :
    (FloorNote.highRiskAdvisory ∈ (audit_material z s dcof r).log ↔
      (audit_material z s dcof r).status = Status.FAIL ∧
        (z = Zone.Bathroom ∨ z = Zone.OutdoorRamp)) ∧
    (audit_material Zone.Bathroom 0 (7/20) 9).status = Status.FAIL ∧
    FloorNote.dcofBelow (7/20) (11/20) ∈ (audit_material Zone.Bathroom 0 (7/20) 9).log ∧
    FloorNote.highRiskAdvisory ∈ (audit_material Zone.Bathroom 0 (7/20) 9).log := by
  refine ⟨?_, ?_, ?_, ?_⟩
  · by_cases h1 : dcof < (resolveRequirements z s).min_dcof <;>
    by_cases h2 : r < (resolveRequirements z s).min_r <;>
    by_cases h3 : z = Zone.Bathroom ∨ z = Zone.OutdoorRamp <;>
      simp [audit_material, h1, h2, h3]
  all_goals
    have hreq : resolveRequirements Zone.Bathroom 0 =
        { min_dcof := 11/20, min_r := 11, standard_ref := "EBD Geriatric Safety Uplift" } := by
      unfold resolveRequirements
      rw [if_neg (by norm_num : ¬ ((0 : ℚ) > 1/50)),
        if_neg (by decide : ¬ (Zone.Bathroom = Zone.TherapyPool)),
        if_pos (by decide : Zone.Bathroom ∈ wetRiskZones)]
    norm_num [audit_material, hreq]

/-- Claim C9: in the pro variant combined spatial audit, a turning diameter
of exactly 0 (the default when the field is missing) can never fail the
turning check: the FAIL branch needs a strictly positive diameter, so no
turning note is ever emitted and the verdict is FAIL exactly when the
slope exceeds 1/12. -/
theorem pro_turning_zero_never_fails (s : ℚ) :
    (∀ x : ℚ, SpatialNote.turningBelow x ∉ (proSpatialAudit 0 s).2) ∧
    ((proSpatialAudit 0 s).1 = Status.FAIL ↔ 1/12 < s) := by
  have h0 : ¬ ((0 : ℚ) < 0 ∧ (0 : ℚ) < 1525) := by norm_num
  simp only [proSpatialAudit, if_neg h0]
  split_ifs with h1 h2 <;> simp_all

end EBD
